import Mathlib

/-!
Shallow embedding of the corrupt-media scanners
(Video/Corrupt_Video_Scanner.py, Video/Corrupt_Video_Scanner_Playback_Software.py,
Audio/Corrupt_Audio_Scanner.py).

External processes are modelled by an environment assigning, to each command
line, a behaviour: the process completes after some wall-clock duration with
an exit code and captured output, never completes, or fails to spawn
(FileNotFoundError from Popen / subprocess.run, e.g. the executable is not
installed).  Each validator is translated into a pure function from that
environment (plus, for the audio scanner, a filesystem view) to its Python
return value together with the trace of external invocations it performed.
-/

namespace MediaScan

/-- Behaviour of the operating system for one external command invocation:
the command completes after some wall-clock duration with an exit code and
captured stdout/stderr, never completes, or fails to spawn (the executable
is missing). -/
inductive ProcSpec where
  | responds (duration : Nat) (exitcode : Int) (stdout : String) (stderr : String)
  | neverCompletes
  | spawnFailure (msg : String)
  deriving DecidableEq, Repr

/-- An environment assigns a behaviour to every command line. -/
def ProcEnv : Type := List String → ProcSpec

/-- Result of spawning a process and waiting for it, as seen by the Python
caller. -/
inductive Comm where
  | done (exitcode : Int) (stdout : String) (stderr : String)
  | timedOut
  | spawnErr (msg : String)
  | hung
  deriving DecidableEq, Repr

/-- Model of subprocess.Popen followed by process.communicate with an
optional timeout argument (and likewise of subprocess.run): a spawn failure
raises FileNotFoundError, a process whose duration exceeds the timeout
raises TimeoutExpired, and waiting without a timeout on a process that
never completes blocks forever. -/
def communicate (env : ProcEnv) (cmd : List String) (tl : Option Nat) : Comm :=
  match env cmd, tl with
  | .spawnFailure m, _ => .spawnErr m
  | .neverCompletes, some _ => .timedOut
  | .neverCompletes, none => .hung
  | .responds d ec out err, some t => if t < d then .timedOut else .done ec out err
  | .responds _ ec out err, none => .done ec out err

/-- A call without a timeout argument: subprocess.run(command, ...) as the
audio scanner issues it. -/
def subprocessRun (env : ProcEnv) (cmd : List String) : Comm :=
  communicate env cmd none

/-- One recorded external invocation: the command line, the timeout passed
to the wait call (none when, as in the audio scanner, no timeout is
given), and whether the scanner called kill() on this process. -/
structure Event where
  cmd : List String
  tlimit : Option Nat
  killed : Bool
  deriving DecidableEq, Repr

/-- Python exceptions the scanners can observe. -/
inductive PyExc where
  | timeoutExpired
  | fileNotFound (msg : String)
  | valueError (msg : String)
  | otherExc (msg : String)
  deriving DecidableEq, Repr

/-- A Python computation either returns a value, lets an exception escape,
or never returns. -/
inductive Py (α : Type) where
  | ret (a : α)
  | exc (e : PyExc)
  | hung
  deriving DecidableEq, Repr

/-- Boolean substring test, modelling the Python `in` operator on str. -/
def strContains (hay needle : String) : Bool :=
  decide (needle.toList <:+: hay.toList)

/-- Model of Python str.strip() with no argument: remove leading and
trailing whitespace. -/
def pyStrip (s : String) : String :=
  String.mk (((s.toList.dropWhile Char.isWhitespace).reverse.dropWhile
    Char.isWhitespace).reverse)

/-- Split a character list on a separator character, keeping empty
segments, as Python str.split(sep) does. -/
def splitListOn (sep : Char) : List Char → List (List Char)
  | [] => [[]]
  | c :: rest =>
    let r := splitListOn sep rest
    if c = sep then [] :: r
    else
      match r with
      | [] => [[c]]
      | h :: t => (c :: h) :: t

/-- Value of a list of decimal digit characters, if every character is a
digit. -/
def digitsVal? (l : List Char) : Option Nat :=
  l.foldl (fun acc c =>
    match acc with
    | none => none
    | some n => if c.isDigit then some (n * 10 + (c.toNat - 48)) else none) (some 0)

/-- Model of Python float() on the plain decimal strings ffprobe prints for
a container duration: an optional integer part, an optional dot, an
optional fractional part, with at least one digit in total; anything else
raises ValueError. -/
def pyFloat? (s : String) : Option ℚ :=
  match splitListOn '.' s.toList with
  | [a] =>
    if a = [] then none
    else (digitsVal? a).map (fun n => (n : ℚ))
  | [a, b] =>
    if a = [] ∧ b = [] then none
    else
      match digitsVal? a, digitsVal? b with
      | some n, some f => some ((n : ℚ) + (f : ℚ) / ((10 : ℚ) ^ b.length))
      | _, _ => none
  | _ => none

/-- Number of decimal digits needed after the point to write q as a finite
decimal (searched up to 60, enough for every midpoint of a parsed
duration). -/
def decDigits (q : ℚ) : Nat :=
  (((List.range 60).filter (fun m => (q * (10 : ℚ) ^ m).den = 1)).head?).getD 0

/-- Model of Python str() on the midpoint float: a finite decimal, with a
trailing .0 for whole numbers. -/
def qToPyStr (q : ℚ) : String :=
  let m := decDigits q
  let n := (q * (10 : ℚ) ^ m).num
  let sign := if n < 0 then "-" else ""
  let digits := toString n.natAbs
  if m = 0 then sign ++ digits ++ ".0"
  else
    let padded :=
      if digits.length ≤ m then
        (String.mk (List.replicate (m + 1 - digits.length) '0')) ++ digits
      else digits
    sign ++ (String.mk (padded.toList.take (padded.length - m))) ++ "." ++
      (String.mk (padded.toList.drop (padded.length - m)))

end MediaScan

namespace MediaScan.Video

/-- Command line of the ffprobe metadata probe
(Corrupt_Video_Scanner.py, validate_metadata). -/
def metadataCommand (file_path : String) : List String :=
  ["ffprobe", "-v", "error", "-show_format", "-show_streams", "-i", file_path]

/-- Corrupt_Video_Scanner.py validate_metadata: run ffprobe with a
30-second timeout; non-zero exit is a validation failure (specialising the
message when stderr reports invalid data), a timeout kills the process and
reports a check-manually message, and any other exception (including a
spawn failure) is caught and reported as an error message.  Returns the
(valid?, reason) pair together with the trace of spawned processes. -/
def validate_metadata (env : ProcEnv) (file_path : String) :
    Py (Bool × Option String) × List Event :=
  let command := metadataCommand file_path
  match communicate env command (some 30) with
  | .spawnErr m =>
      -- Popen raised before `process` was assigned: nothing to kill.
      (.ret (false, some ("Error occurred: " ++ m)), [])
  | .timedOut =>
      (.ret (false, some "Process timed out, Please Check Manually"),
       [⟨command, some 30, true⟩])
  | .hung =>
      -- unreachable: a wait with a timeout never blocks forever
      (.hung, [⟨command, some 30, false⟩])
  | .done ec _out err =>
      if ec ≠ 0 then
        if strContains err "Invalid data found" then
          (.ret (false, some ("Invalid data found: " ++ pyStrip err)),
           [⟨command, some 30, false⟩])
        else
          (.ret (false, some ("Metadata validation failed: " ++ pyStrip err)),
           [⟨command, some 30, false⟩])
      else (.ret (true, none), [⟨command, some 30, false⟩])

/-- Command line chosen by the decoder match in validate_playback; the
wildcard arm of the Python match raises ValueError, modelled as none. -/
def playbackCommand (decoder file_path : String) : Option (List String) :=
  if decoder = "hardware" then
    some ["ffmpeg", "-v", "error", "-hwaccel", "auto", "-i", file_path,
          "-t", "5", "-f", "null", "-"]
  else if decoder = "software" then
    some ["ffmpeg", "-v", "error", "-i", file_path, "-t", "5", "-f", "null", "-"]
  else none

/-- Corrupt_Video_Scanner.py validate_playback: decode five seconds from
the start with ffmpeg under a 30-second timeout.  An invalid decoder mode
raises ValueError inside the try block, which the function's own generic
handler converts into an ordinary (False, reason) return. -/
def validate_playback (env : ProcEnv) (file_path decoder : String) :
    Py (Bool × Option String) × List Event :=
  match playbackCommand decoder file_path with
  | none =>
      (.ret (false, some ("Error occurred: Invalid decoder method: " ++ decoder)), [])
  | some command =>
    match communicate env command (some 30) with
    | .spawnErr m => (.ret (false, some ("Error occurred: " ++ m)), [])
    | .timedOut =>
        (.ret (false, some "Playback process timed out, Please Check Manually"),
         [⟨command, some 30, true⟩])
    | .hung => (.hung, [⟨command, some 30, false⟩])
    | .done ec _out err =>
        if ec ≠ 0 then
          (.ret (false, some ("Playback failed at start: " ++ pyStrip err)),
           [⟨command, some 30, false⟩])
        else (.ret (true, none), [⟨command, some 30, false⟩])

/-- Command line of the ffprobe duration query used by the in-depth
validators. -/
def durationCommand (file_path : String) : List String :=
  ["ffprobe", "-v", "error", "-show_entries", "format=duration", "-of", "csv=p=0",
   file_path]

/-- Start-probe command of validate_playback_indepth, per decoder mode
(none models the ValueError of the wildcard arm). -/
def indepthStartCommand (decoder file_path : String) : Option (List String) :=
  if decoder = "software" then
    some ["ffmpeg", "-v", "error", "-ss", "0", "-i", file_path,
          "-t", "5", "-f", "null", "-"]
  else if decoder = "hardware" then
    some ["ffmpeg", "-v", "error", "-hwaccel", "auto", "-ss", "0", "-i", file_path,
          "-t", "5", "-f", "null", "-"]
  else none

/-- Middle-probe command of validate_playback_indepth, seeking to the
printed midpoint. -/
def indepthMiddleCommand (decoder midpoint file_path : String) : Option (List String) :=
  if decoder = "software" then
    some ["ffmpeg", "-v", "error", "-ss", midpoint, "-i", file_path,
          "-t", "5", "-f", "null", "-"]
  else if decoder = "hardware" then
    some ["ffmpeg", "-v", "error", "-hwaccel", "auto", "-ss", midpoint, "-i",
          file_path, "-t", "5", "-f", "null", "-"]
  else none

/-- End-probe command of validate_playback_indepth, seeking five seconds
before the end of the file. -/
def indepthEndCommand (decoder file_path : String) : Option (List String) :=
  if decoder = "software" then
    some ["ffmpeg", "-v", "error", "-sseof", "-5", "-i", file_path,
          "-t", "5", "-f", "null", "-"]
  else if decoder = "hardware" then
    some ["ffmpeg", "-v", "error", "-hwaccel", "auto", "-sseof", "-5", "-i",
          file_path, "-t", "5", "-f", "null", "-"]
  else none

/-- Corrupt_Video_Scanner.py validate_playback_indepth: probe playback at
the start, query the container duration, probe at the midpoint and probe
near the end, each under the given timeout (the scanner always passes the
default of 30 seconds), returning at the first failing stage.  The Python
`process` variable always holds the most recently spawned process; the
shared exception handler kills that process, so a timeout kills the probe
that timed out, while a ValueError (bad decoder string, unparsable
duration) or a failed later spawn kills the previous, already finished,
process. -/
def validate_playback_indepth (env : ProcEnv) (file_path decoder : String)
    (tl : Nat := 30) : Py (Bool × Option String) × List Event :=
  match indepthStartCommand decoder file_path with
  | none =>
      (.ret (false, some ("Error occurred: Invalid decoder method: " ++ decoder)), [])
  | some c1 =>
    match communicate env c1 (some tl) with
    | .spawnErr m => (.ret (false, some ("Error occurred: " ++ m)), [])
    | .timedOut =>
        (.ret (false, some "Playback process timed out, Please Check Manually"),
         [⟨c1, some tl, true⟩])
    | .hung => (.hung, [⟨c1, some tl, false⟩])
    | .done ec1 _out1 err1 =>
      if ec1 ≠ 0 then
        (.ret (false, some ("Playback failed at the start: " ++ pyStrip err1)),
         [⟨c1, some tl, false⟩])
      else
        let c2 := durationCommand file_path
        match communicate env c2 (some tl) with
        | .spawnErr m =>
            (.ret (false, some ("Error occurred: " ++ m)), [⟨c1, some tl, true⟩])
        | .timedOut =>
            (.ret (false, some "Playback process timed out, Please Check Manually"),
             [⟨c1, some tl, false⟩, ⟨c2, some tl, true⟩])
        | .hung => (.hung, [⟨c1, some tl, false⟩, ⟨c2, some tl, false⟩])
        | .done ec2 out2 err2 =>
          if ec2 ≠ 0 then
            (.ret (false, some ("Failed to fetch file duration: " ++ pyStrip err2)),
             [⟨c1, some tl, false⟩, ⟨c2, some tl, false⟩])
          else
            let duration_str := pyStrip out2
            if duration_str = "" then
              (.ret (false, some "Failed to fetch file duration"),
               [⟨c1, some tl, false⟩, ⟨c2, some tl, false⟩])
            else
              match pyFloat? duration_str with
              | none =>
                  (.ret (false, some ("Error occurred: could not convert string to float: \x27"
                     ++ duration_str ++ "\x27")),
                   [⟨c1, some tl, false⟩, ⟨c2, some tl, true⟩])
              | some duration =>
                let midpoint := duration / 2
                match indepthMiddleCommand decoder (qToPyStr midpoint) file_path with
                | none =>
                    (.ret (false, some ("Error occurred: Invalid decoder method: " ++ decoder)),
                     [⟨c1, some tl, false⟩, ⟨c2, some tl, true⟩])
                | some c3 =>
                  match communicate env c3 (some tl) with
                  | .spawnErr m =>
                      (.ret (false, some ("Error occurred: " ++ m)),
                       [⟨c1, some tl, false⟩, ⟨c2, some tl, true⟩])
                  | .timedOut =>
                      (.ret (false, some "Playback process timed out, Please Check Manually"),
                       [⟨c1, some tl, false⟩, ⟨c2, some tl, false⟩, ⟨c3, some tl, true⟩])
                  | .hung =>
                      (.hung,
                       [⟨c1, some tl, false⟩, ⟨c2, some tl, false⟩, ⟨c3, some tl, false⟩])
                  | .done ec3 _out3 err3 =>
                    if ec3 ≠ 0 then
                      (.ret (false, some ("Playback failed at the middle: " ++ pyStrip err3)),
                       [⟨c1, some tl, false⟩, ⟨c2, some tl, false⟩, ⟨c3, some tl, false⟩])
                    else
                      match indepthEndCommand decoder file_path with
                      | none =>
                          (.ret (false, some ("Error occurred: Invalid decoder method: "
                             ++ decoder)),
                           [⟨c1, some tl, false⟩, ⟨c2, some tl, false⟩, ⟨c3, some tl, true⟩])
                      | some c4 =>
                        match communicate env c4 (some tl) with
                        | .spawnErr m =>
                            (.ret (false, some ("Error occurred: " ++ m)),
                             [⟨c1, some tl, false⟩, ⟨c2, some tl, false⟩,
                              ⟨c3, some tl, true⟩])
                        | .timedOut =>
                            (.ret (false,
                               some "Playback process timed out, Please Check Manually"),
                             [⟨c1, some tl, false⟩, ⟨c2, some tl, false⟩,
                              ⟨c3, some tl, false⟩, ⟨c4, some tl, true⟩])
                        | .hung =>
                            (.hung,
                             [⟨c1, some tl, false⟩, ⟨c2, some tl, false⟩,
                              ⟨c3, some tl, false⟩, ⟨c4, some tl, false⟩])
                        | .done ec4 _out4 err4 =>
                          if ec4 ≠ 0 then
                            (.ret (false,
                               some ("Playback failed at the end: " ++ pyStrip err4)),
                             [⟨c1, some tl, false⟩, ⟨c2, some tl, false⟩,
                              ⟨c3, some tl, false⟩, ⟨c4, some tl, false⟩])
                          else
                            (.ret (true, none),
                             [⟨c1, some tl, false⟩, ⟨c2, some tl, false⟩,
                              ⟨c3, some tl, false⟩, ⟨c4, some tl, false⟩])

end MediaScan.Video

namespace MediaScan.Audio

/-- View of the filesystem the audio scanner consults: the size of each
path that is a regular file (none when the path is not a file). -/
def FileSys : Type := String → Option Nat

/-- Command line of the ffprobe metadata probe
(Corrupt_Audio_Scanner.py, validate_audio_metadata). -/
def metadataCommand (file_path : String) : List String :=
  ["ffprobe", "-v", "error", "-show_format", "-show_streams", file_path]

/-- Start-probe command of validate_audio_playback (always hardware
accelerated). -/
def startCommand (file_path : String) : List String :=
  ["ffmpeg", "-v", "error", "-hwaccel", "auto", "-ss", "0", "-i", file_path,
   "-t", "5", "-f", "null", "-"]

/-- Duration query of validate_audio_playback. -/
def durationCommand (file_path : String) : List String :=
  ["ffprobe", "-v", "error", "-show_entries", "format=duration", "-of", "csv=p=0",
   file_path]

/-- Middle-probe command of validate_audio_playback. -/
def middleCommand (midpoint file_path : String) : List String :=
  ["ffmpeg", "-v", "error", "-hwaccel", "auto", "-ss", midpoint, "-i", file_path,
   "-t", "5", "-f", "null", "-"]

/-- End-probe command of validate_audio_playback. -/
def endCommand (file_path : String) : List String :=
  ["ffmpeg", "-v", "error", "-hwaccel", "auto", "-sseof", "-5", "-i", file_path,
   "-t", "5", "-f", "null", "-"]

/-- Corrupt_Audio_Scanner.py validate_audio_metadata: reject missing or
empty files before any external call, then validate metadata with one
ffprobe run issued through subprocess.run with no timeout.  Returns the
per-file (path, error) pair on failure and none on success, plus the trace
of spawned processes. -/
def validate_audio_metadata (fs : FileSys) (env : ProcEnv) (file_path : String) :
    Py (Option (String × String)) × List Event :=
  match fs file_path with
  | none => (.ret (some (file_path, "File is empty or does not exist")), [])
  | some sz =>
    if sz = 0 then
      (.ret (some (file_path, "File is empty or does not exist")), [])
    else
      let command := metadataCommand file_path
      match subprocessRun env command with
      | .spawnErr m =>
          (.ret (some (file_path, "Metadata validation error: " ++ m)), [])
      | .timedOut =>
          -- unreachable: subprocess.run is issued without a timeout
          (.hung, [⟨command, none, false⟩])
      | .hung => (.hung, [⟨command, none, false⟩])
      | .done ec _out err =>
        if ec ≠ 0 then
          (.ret (some (file_path, "Metadata validation failed: " ++ pyStrip err)),
           [⟨command, none, false⟩])
        else (.ret none, [⟨command, none, false⟩])

/-- Corrupt_Audio_Scanner.py validate_audio_playback: probe the start,
query the duration (its exit code is never checked, only the emptiness of
its stdout), probe the midpoint, probe the end.  Every subprocess.run call
is issued without a timeout, so the call blocks forever on a process that
never completes and no process is ever killed.  Exceptions raised while
orchestrating (spawn failures, an unparsable duration) are caught by the
function and reported as a per-file error pair. -/
def validate_audio_playback (env : ProcEnv) (file_path : String) :
    Py (Option (String × String)) × List Event :=
  let c1 := startCommand file_path
  match subprocessRun env c1 with
  | .spawnErr m =>
      (.ret (some (file_path, "Playback validation error: " ++ m)), [])
  | .timedOut => (.hung, [⟨c1, none, false⟩])  -- unreachable without a timeout
  | .hung => (.hung, [⟨c1, none, false⟩])
  | .done ec1 _out1 _err1 =>
    if ec1 ≠ 0 then
      (.ret (some (file_path, "Playback failed at the start")), [⟨c1, none, false⟩])
    else
      let c2 := durationCommand file_path
      match subprocessRun env c2 with
      | .spawnErr m =>
          (.ret (some (file_path, "Playback validation error: " ++ m)),
           [⟨c1, none, false⟩])
      | .timedOut => (.hung, [⟨c1, none, false⟩, ⟨c2, none, false⟩])
      | .hung => (.hung, [⟨c1, none, false⟩, ⟨c2, none, false⟩])
      | .done _ec2 out2 _err2 =>
        let duration_str := pyStrip out2
        if duration_str = "" then
          (.ret (some (file_path, "Failed to fetch file duration")),
           [⟨c1, none, false⟩, ⟨c2, none, false⟩])
        else
          match pyFloat? duration_str with
          | none =>
              (.ret (some (file_path,
                 "Playback validation error: could not convert string to float: \x27"
                 ++ duration_str ++ "\x27")),
               [⟨c1, none, false⟩, ⟨c2, none, false⟩])
          | some duration =>
            let midpoint := duration / 2
            let c3 := middleCommand (qToPyStr midpoint) file_path
            match subprocessRun env c3 with
            | .spawnErr m =>
                (.ret (some (file_path, "Playback validation error: " ++ m)),
                 [⟨c1, none, false⟩, ⟨c2, none, false⟩])
            | .timedOut =>
                (.hung, [⟨c1, none, false⟩, ⟨c2, none, false⟩, ⟨c3, none, false⟩])
            | .hung =>
                (.hung, [⟨c1, none, false⟩, ⟨c2, none, false⟩, ⟨c3, none, false⟩])
            | .done ec3 _out3 _err3 =>
              if ec3 ≠ 0 then
                (.ret (some (file_path, "Playback failed at the middle")),
                 [⟨c1, none, false⟩, ⟨c2, none, false⟩, ⟨c3, none, false⟩])
              else
                let c4 := endCommand file_path
                match subprocessRun env c4 with
                | .spawnErr m =>
                    (.ret (some (file_path, "Playback validation error: " ++ m)),
                     [⟨c1, none, false⟩, ⟨c2, none, false⟩, ⟨c3, none, false⟩])
                | .timedOut =>
                    (.hung, [⟨c1, none, false⟩, ⟨c2, none, false⟩,
                             ⟨c3, none, false⟩, ⟨c4, none, false⟩])
                | .hung =>
                    (.hung, [⟨c1, none, false⟩, ⟨c2, none, false⟩,
                             ⟨c3, none, false⟩, ⟨c4, none, false⟩])
                | .done ec4 _out4 _err4 =>
                  if ec4 ≠ 0 then
                    (.ret (some (file_path, "Playback failed at the end")),
                     [⟨c1, none, false⟩, ⟨c2, none, false⟩,
                      ⟨c3, none, false⟩, ⟨c4, none, false⟩])
                  else
                    (.ret none,
                     [⟨c1, none, false⟩, ⟨c2, none, false⟩,
                      ⟨c3, none, false⟩, ⟨c4, none, false⟩])

/-- Corrupt_Audio_Scanner.py validate_audio_file: metadata validation
first, playback validation only when metadata passed; the first failing
validation's pair is the file's result. -/
def validate_audio_file (fs : FileSys) (env : ProcEnv) (file_path : String) :
    Py (Option (String × String)) × List Event :=
  match validate_audio_metadata fs env file_path with
  | (.ret (some r), tr) => (.ret (some r), tr)
  | (.ret none, tr1) =>
    match validate_audio_playback env file_path with
    | (r, tr2) => (r, tr1 ++ tr2)
  | (.exc e, tr) => (.exc e, tr)
  | (.hung, tr) => (.hung, tr)

end MediaScan.Audio

namespace MediaScan.Video

/-- The validation method selected on the command line of
Corrupt_Video_Scanner.py. -/
inductive VMethod where
  | metadata
  | playback
  | indepth
  deriving DecidableEq, Repr

/-- Dispatch of process_section to the selected validation function; the
decoder argument is forwarded only to the playback validators, exactly as
the submit loop does.  The scanner passes the decoder command-line value
through unchanged (the string "None" stands for Python None, which the
decoder match also sends to its ValueError arm). -/
def runValidation (env : ProcEnv) (v : VMethod) (decoder file_path : String) :
    Py (Bool × Option String) × List Event :=
  match v with
  | .metadata => validate_metadata env file_path
  | .playback => validate_playback env file_path decoder
  | .indepth => validate_playback_indepth env file_path decoder 30

/-- One iteration of the as_completed loop of process_section: the
future's (valid?, reason) result contributes a corrupted-files entry when
the validator reported failure, and each exception class the loop catches
contributes its fixed entry.  none means the file contributed no entry. -/
def taskEntry (file_path : String) (r : Py (Bool × Option String)) :
    Option (String × Option String) :=
  match r with
  | .ret (ok, reason) => if ok then none else some (file_path, reason)
  | .exc .timeoutExpired => some (file_path, some "Timeout expired")
  | .exc (.fileNotFound _) => some (file_path, some "File not found")
  | .exc (.valueError m) => some (file_path, some ("Unexpected error: " ++ m))
  | .exc (.otherExc m) => some (file_path, some ("Unexpected error: " ++ m))
  | .hung => none

/-- The as_completed collection loop of process_section, visiting the
submitted futures in their completion order.  Waiting on a future whose
task never finishes blocks forever; every exception a future re-raises is
caught and recorded, so the loop itself never raises. -/
def poolLoop (env : ProcEnv) (v : VMethod) (decoder : String) :
    List String → Py (List (String × Option String))
  | [] => .ret []
  | file_path :: rest =>
    match (runValidation env v decoder file_path).1 with
    | .hung => .hung
    | r =>
      match poolLoop env v decoder rest with
      | .ret acc => .ret ((taskEntry file_path r).toList ++ acc)
      | .exc e => .exc e
      | .hung => .hung

/-- Rows process_section writes to the section's CSV file: a header row
followed by one (path, reason) row per corrupted file. -/
def csvRows (corrupted : List (String × Option String)) : List (List String) :=
  ["Corrupted File Path", "Reason"] :: corrupted.map (fun p => [p.1, p.2.getD ""])

/-- Corrupt_Video_Scanner.py process_section, from the point where the
candidate list has been collected: run every file through the selected
validator under the pool, gather the corrupted files in completion order,
and write the CSV report only when at least one corrupted file was
recorded (the second component is the rows written, none when no write
happens).  The corrupted list is returned to the caller either way. -/
def process_section (env : ProcEnv) (v : VMethod) (decoder : String)
    (completed : List String) :
    Py (List (String × Option String) × Option (List (List String))) :=
  match poolLoop env v decoder completed with
  | .ret corrupted =>
      .ret (corrupted, if corrupted.isEmpty then none else some (csvRows corrupted))
  | .exc e => .exc e
  | .hung => .hung

/-- The per-file observation the pool makes: each submitted file paired
with its task's result, one observation per submitted file. -/
def sectionOutcomes (env : ProcEnv) (v : VMethod) (decoder : String)
    (completed : List String) : List (String × Py (Bool × Option String)) :=
  completed.map (fun file_path => (file_path, (runValidation env v decoder file_path).1))

end MediaScan.Video

namespace MediaScan.VideoSW

/-- Corrupt_Video_Scanner_Playback_Software.py validate_playback: one
software-decode pass over the first five seconds, 30-second timeout,
timeout kills the process. -/
def validate_playback (env : ProcEnv) (file_path : String) :
    Py (Bool × Option String) × List Event :=
  let command := ["ffmpeg", "-v", "error", "-i", file_path, "-t", "5", "-f", "null", "-"]
  match communicate env command (some 30) with
  | .spawnErr m => (.ret (false, some ("Error occurred: " ++ m)), [])
  | .timedOut =>
      (.ret (false, some "Playback process timed out, Please Check Manually"),
       [⟨command, some 30, true⟩])
  | .hung => (.hung, [⟨command, some 30, false⟩])
  | .done ec _out err =>
      if ec ≠ 0 then
        (.ret (false, some ("Playback failed at start: " ++ pyStrip err)),
         [⟨command, some 30, false⟩])
      else (.ret (true, none), [⟨command, some 30, false⟩])

/-- Rendering of a caught exception by str(), as the software scanner's
loop logs it. -/
def excStr : PyExc → String
  | .timeoutExpired => "Command timed out"
  | .fileNotFound m => m
  | .valueError m => m
  | .otherExc m => m

/-- Corrupt_Video_Scanner_Playback_Software.py is_video_corrupted: wraps
validate_playback, inverting the polarity (True means corrupted) and
treating an unexpected exception as corruption. -/
def is_video_corrupted (env : ProcEnv) (file_path : String) :
    Py (Bool × Option String) × List Event :=
  match validate_playback env file_path with
  | (.ret (true, _reason), tr) => (.ret (false, none), tr)
  | (.ret (false, reason), tr) =>
      (.ret (true, some ("Playback error: " ++ reason.getD "None")), tr)
  | (.exc e, tr) => (.ret (true, some (excStr e)), tr)
  | (.hung, tr) => (.hung, tr)

/-- One iteration of the software scanner's as_completed loop: a (True,
reason) result contributes an entry, and any exception re-raised by the
future is caught and logged with its str(). -/
def taskEntry (file_path : String) (r : Py (Bool × Option String)) :
    Option (String × Option String) :=
  match r with
  | .ret (corrupted, reason) => if corrupted then some (file_path, reason) else none
  | .exc e => some (file_path, some (excStr e))
  | .hung => none

/-- The software scanner's collection loop over completed futures. -/
def poolLoop (env : ProcEnv) : List String → Py (List (String × Option String))
  | [] => .ret []
  | file_path :: rest =>
    match (is_video_corrupted env file_path).1 with
    | .hung => .hung
    | r =>
      match poolLoop env rest with
      | .ret acc => .ret ((taskEntry file_path r).toList ++ acc)
      | .exc e => .exc e
      | .hung => .hung

/-- Corrupt_Video_Scanner_Playback_Software.py process_section from the
point where the candidate list has been collected; the CSV rows are
written only when at least one corrupted file was recorded. -/
def process_section (env : ProcEnv) (completed : List String) :
    Py (List (String × Option String) × Option (List (List String))) :=
  match poolLoop env completed with
  | .ret corrupted =>
      .ret (corrupted,
        if corrupted.isEmpty then none else some (Video.csvRows corrupted))
  | .exc e => .exc e
  | .hung => .hung

end MediaScan.VideoSW

namespace MediaScan

/-- A wait that was given a timeout never blocks forever. -/
theorem communicate_some_ne_hung (env : ProcEnv) (cmd : List String) (t : Nat) :
    communicate env cmd (some t) ≠ Comm.hung := by
  unfold communicate
  rcases env cmd with ⟨d, ec, o, e⟩ | _ | m <;> simp
  split <;> simp

/-- The video metadata validator always returns a (valid?, reason) pair:
no exception escapes it and it cannot block. -/
theorem validate_metadata_ret (env : ProcEnv) (file_path : String) :
    ∃ b r, (Video.validate_metadata env file_path).1 = Py.ret (b, r) := by
  unfold Video.validate_metadata
  repeat' (first | split | dsimp only)
  all_goals first
    | exact ⟨_, _, rfl⟩
    | exact absurd (by assumption) (communicate_some_ne_hung _ _ _)

/-- The single-point video playback validator always returns a pair. -/
theorem validate_playback_ret (env : ProcEnv) (file_path decoder : String) :
    ∃ b r, (Video.validate_playback env file_path decoder).1 = Py.ret (b, r) := by
  unfold Video.validate_playback
  repeat' (first | split | dsimp only)
  all_goals first
    | exact ⟨_, _, rfl⟩
    | exact absurd (by assumption) (communicate_some_ne_hung _ _ _)

/-- The in-depth video playback validator always returns a pair. -/
theorem validate_playback_indepth_ret (env : ProcEnv) (file_path decoder : String)
    (tl : Nat) :
    ∃ b r, (Video.validate_playback_indepth env file_path decoder tl).1 = Py.ret (b, r) := by
  unfold Video.validate_playback_indepth
  repeat' (first | split | dsimp only)
  all_goals first
    | exact ⟨_, _, rfl⟩
    | exact absurd (by assumption) (communicate_some_ne_hung _ _ _)

/-- Whatever the method and decoder, a video validation task always
returns a pair. -/
theorem runValidation_ret (env : ProcEnv) (v : Video.VMethod) (decoder file_path : String) :
    ∃ b r, (Video.runValidation env v decoder file_path).1 = Py.ret (b, r) := by
  cases v with
  | metadata => exact validate_metadata_ret env file_path
  | playback => exact validate_playback_ret env file_path decoder
  | indepth => exact validate_playback_indepth_ret env file_path decoder 30

/-- The collection loop of Corrupt_Video_Scanner.py returns, in completion
order, exactly the entries the per-file observations contribute. -/
theorem poolLoop_eq (env : ProcEnv) (v : Video.VMethod) (decoder : String) :
    ∀ completed : List String,
      Video.poolLoop env v decoder completed
        = Py.ret (completed.filterMap
            (fun fp => Video.taskEntry fp (Video.runValidation env v decoder fp).1)) := by
  intro completed
  induction completed with
  | nil => rfl
  | cons fp rest ih =>
    obtain ⟨b, r, h⟩ := runValidation_ret env v decoder fp
    simp only [Video.poolLoop, h, ih, List.filterMap_cons]
    cases h2 : Video.taskEntry fp (Py.ret (b, r)) <;> simp [h2]

/-- Corrupt_Video_Scanner.py process_section always returns the collected
corrupted list, writing the CSV rows exactly when that list is nonempty. -/
theorem process_section_eq (env : ProcEnv) (v : Video.VMethod) (decoder : String)
    (completed : List String) :
    Video.process_section env v decoder completed
      = Py.ret
          (completed.filterMap
            (fun fp => Video.taskEntry fp (Video.runValidation env v decoder fp).1),
           if (completed.filterMap
                (fun fp => Video.taskEntry fp (Video.runValidation env v decoder fp).1)).isEmpty
           then none
           else some (Video.csvRows (completed.filterMap
                (fun fp => Video.taskEntry fp (Video.runValidation env v decoder fp).1)))) := by
  rw [Video.process_section, poolLoop_eq]

/-- The software scanner's playback validator always returns a pair: a
valid file yields (True, None) and an invalid one (False, some reason). -/
theorem validate_playbackSW_shape (env : ProcEnv) (file_path : String) :
    (VideoSW.validate_playback env file_path).1 = Py.ret (true, none) ∨
    ∃ m, (VideoSW.validate_playback env file_path).1 = Py.ret (false, some m) := by
  unfold VideoSW.validate_playback
  repeat' (first | split | dsimp only)
  all_goals first
    | exact Or.inl rfl
    | exact Or.inr ⟨_, rfl⟩
    | exact absurd (by assumption) (communicate_some_ne_hung _ _ _)

/-- The software scanner's task wrapper always returns a pair, and its
shape is fixed: a valid file yields (False, None) and a corrupted one
yields (True, some reason). -/
theorem is_video_corrupted_shape (env : ProcEnv) (file_path : String) :
    (VideoSW.is_video_corrupted env file_path).1 = Py.ret (false, none) ∨
    ∃ m, (VideoSW.is_video_corrupted env file_path).1 = Py.ret (true, some m) := by
  rcases h : VideoSW.validate_playback env file_path with ⟨res, tr⟩
  have h1 : (VideoSW.validate_playback env file_path).1 = res := by rw [h]
  rcases validate_playbackSW_shape env file_path with h2 | ⟨m, h2⟩ <;>
      rw [h1] at h2 <;> subst h2
  · left
    simp [VideoSW.is_video_corrupted, h]
  · right
    exact ⟨"Playback error: " ++ m, by simp [VideoSW.is_video_corrupted, h]⟩

/-- The software scanner's collection loop returns exactly its entries. -/
theorem poolLoopSW_eq (env : ProcEnv) :
    ∀ completed : List String,
      VideoSW.poolLoop env completed
        = Py.ret (completed.filterMap
            (fun fp => VideoSW.taskEntry fp (VideoSW.is_video_corrupted env fp).1)) := by
  intro completed
  induction completed with
  | nil => rfl
  | cons fp rest ih =>
    have h : ∃ b r, (VideoSW.is_video_corrupted env fp).1 = Py.ret (b, r) := by
      rcases is_video_corrupted_shape env fp with h | ⟨m, h⟩
      · exact ⟨_, _, h⟩
      · exact ⟨_, _, h⟩
    obtain ⟨b, r, h⟩ := h
    simp only [VideoSW.poolLoop, h, ih, List.filterMap_cons]
    cases h2 : VideoSW.taskEntry fp (Py.ret (b, r)) <;> simp [h2]

/-- The software scanner's process_section always returns its corrupted
list, writing the CSV rows exactly when the list is nonempty. -/
theorem process_sectionSW_eq (env : ProcEnv) (completed : List String) :
    VideoSW.process_section env completed
      = Py.ret
          (completed.filterMap
            (fun fp => VideoSW.taskEntry fp (VideoSW.is_video_corrupted env fp).1),
           if (completed.filterMap
                (fun fp => VideoSW.taskEntry fp (VideoSW.is_video_corrupted env fp).1)).isEmpty
           then none
           else some (Video.csvRows (completed.filterMap
                (fun fp => VideoSW.taskEntry fp (VideoSW.is_video_corrupted env fp).1)))) := by
  rw [VideoSW.process_section, poolLoopSW_eq]

/-- Sample environment: every command completes at once with exit 0. -/
def envAllValid : ProcEnv := fun _ => ProcSpec.responds 0 0 "" ""

/-- Sample environment: every command exits 1 with stderr boom. -/
def envExitFail : ProcEnv := fun _ => ProcSpec.responds 0 1 "" "boom"

/-- Sample environment: no command ever completes. -/
def envNever : ProcEnv := fun _ => ProcSpec.neverCompletes

/-- Sample environment: no executable can be spawned. -/
def envMissingExe : ProcEnv :=
  fun _ => ProcSpec.spawnFailure "No such file or directory: ffprobe"

/-- Sample filesystem on which no path is a regular file. -/
def fsAllMissing : Audio.FileSys := fun _ => none

/-- C2 counterexample: under a filesystem where ghost.mp4 is missing, the
video MetadataCheck strategy (which consults no filesystem at all) still
spawns its ffprobe probe for the file, and the verdict it reports comes
from that probe's stderr, not from an existence stage — so a missing file
does not short-circuit to a Corrupt/existence verdict without an external
process. -/
theorem video_no_existence_fastpath_counterexample :
    fsAllMissing "ghost.mp4" = none ∧
    (Video.validate_metadata envExitFail "ghost.mp4").2.length = 1 ∧
    (Video.validate_metadata envExitFail "ghost.mp4").1
      = Py.ret (false, some "Metadata validation failed: boom") := by
  refine ⟨rfl, rfl, by decide⟩

/-- C4 counterexample: the audio playback validator issues its start probe
through subprocess.run with no timeout argument, so against a prober that
never completes the call blocks forever — no 30-second bound, no kill, and
no Timeout-classified result. -/
theorem audio_playback_unbounded_counterexample :
    (Audio.validate_audio_playback envNever "song.mp3").1 = Py.hung ∧
    (Audio.validate_audio_playback envNever "song.mp3").2
      = [⟨Audio.startCommand "song.mp3", none, false⟩] := by
  exact ⟨rfl, rfl⟩

/-- C5 counterexample: with the ffprobe executable missing, the whole-scan
run is not aborted; the spawn failure is caught inside the strategy and
recorded as an ordinary per-file outcome for every file, and the scan
completes normally with a written report. -/
theorem missing_binary_recorded_per_file_counterexample :
    Video.process_section envMissingExe Video.VMethod.metadata "software"
        ["a.mp4", "b.mp4"]
      = Py.ret ([("a.mp4", some "Error occurred: No such file or directory: ffprobe"),
                 ("b.mp4", some "Error occurred: No such file or directory: ffprobe")],
          some [["Corrupted File Path", "Reason"],
                ["a.mp4", "Error occurred: No such file or directory: ffprobe"],
                ["b.mp4", "Error occurred: No such file or directory: ffprobe"]]) := by
  rfl

/-- C6 counterexample: an invalid decoder mode does not fail fast; the
ValueError is caught by the validator's own handler and becomes an
ordinary per-file outcome, and a scan over two files with the bogus
decoder still records one such outcome per file and runs to completion. -/
theorem invalid_decoder_ordinary_outcome_counterexample :
    Video.validate_playback envAllValid "f.mp4" "bogus"
      = (Py.ret (false, some "Error occurred: Invalid decoder method: bogus"), []) ∧
    Video.process_section envAllValid Video.VMethod.playback "bogus" ["f.mp4", "g.mp4"]
      = Py.ret ([("f.mp4", some "Error occurred: Invalid decoder method: bogus"),
                 ("g.mp4", some "Error occurred: Invalid decoder method: bogus")],
          some [["Corrupted File Path", "Reason"],
                ["f.mp4", "Error occurred: Invalid decoder method: bogus"],
                ["g.mp4", "Error occurred: Invalid decoder method: bogus"]]) := by
  exact ⟨rfl, rfl⟩

/-- C5 amended: when every spawn fails (the validator binary is missing),
the metadata scan still runs to completion, recording one ordinary
per-file outcome, with the caught FileNotFoundError's message, for every
submitted file; nothing aborts the scan. -/
theorem missing_binary_not_fatal (env : ProcEnv) (m : String)
    (completed : List String) (h : ∀ c, env c = ProcSpec.spawnFailure m) :
    Video.process_section env Video.VMethod.metadata "software" completed
      = Py.ret (completed.map (fun fp => (fp, some ("Error occurred: " ++ m))),
          if completed.isEmpty then none
          else some (Video.csvRows
            (completed.map (fun fp => (fp, some ("Error occurred: " ++ m)))))) := by
  have hfm : completed.filterMap
      (fun fp => Video.taskEntry fp
        (Video.runValidation env Video.VMethod.metadata "software" fp).1)
      = completed.map (fun fp => (fp, some ("Error occurred: " ++ m))) := by
    induction completed with
    | nil => rfl
    | cons a t iht =>
      simp only [List.filterMap_cons, List.map_cons, iht]
      simp [Video.runValidation, Video.validate_metadata, communicate, h,
        Video.taskEntry]
  rw [process_section_eq, hfm]
  cases completed with
  | nil => rfl
  | cons a t => simp [List.isEmpty]

/-- C5 amended witness at a concrete environment and file list. -/
theorem missing_binary_not_fatal_witness :
    (∀ c, envMissingExe c
        = ProcSpec.spawnFailure "No such file or directory: ffprobe") ∧
    Video.process_section envMissingExe Video.VMethod.metadata "software" ["a.mp4"]
      = Py.ret ((["a.mp4"] : List String).map
            (fun fp => (fp,
              some ("Error occurred: " ++ "No such file or directory: ffprobe"))),
          if (["a.mp4"] : List String).isEmpty then none
          else some (Video.csvRows ((["a.mp4"] : List String).map
            (fun fp => (fp,
              some ("Error occurred: " ++ "No such file or directory: ffprobe")))))) :=
  ⟨fun _ => rfl,
   missing_binary_not_fatal envMissingExe "No such file or directory: ffprobe"
     ["a.mp4"] (fun _ => rfl)⟩

/-- C6 amended: an invalid decoder mode raises ValueError inside the try
block of each playback validator, and the validator's own generic handler
converts it into the ordinary per-file outcome (False, Error occurred:
Invalid decoder method: ...) with no external process spawned; it neither
falls back to another decoder nor propagates as a fatal configuration
error. -/
theorem invalid_decoder_caught_not_fatal (env : ProcEnv) (file_path decoder : String)
    (h1 : decoder ≠ "hardware") (h2 : decoder ≠ "software") :
    Video.validate_playback env file_path decoder
      = (Py.ret (false, some ("Error occurred: Invalid decoder method: " ++ decoder)),
         []) ∧
    Video.validate_playback_indepth env file_path decoder 30
      = (Py.ret (false, some ("Error occurred: Invalid decoder method: " ++ decoder)),
         []) := by
  constructor
  · simp [Video.validate_playback, Video.playbackCommand, h1, h2]
  · simp [Video.validate_playback_indepth, Video.indepthStartCommand, h1, h2]

/-- C6 amended witness at a concrete bogus decoder string. -/
theorem invalid_decoder_caught_not_fatal_witness :
    ("bogus" : String) ≠ "hardware" ∧ ("bogus" : String) ≠ "software" ∧
    (Video.validate_playback envAllValid "f.mp4" "bogus"
      = (Py.ret (false, some ("Error occurred: Invalid decoder method: " ++ "bogus")),
         []) ∧
     Video.validate_playback_indepth envAllValid "f.mp4" "bogus" 30
      = (Py.ret (false, some ("Error occurred: Invalid decoder method: " ++ "bogus")),
         [])) :=
  ⟨by decide, by decide,
   invalid_decoder_caught_not_fatal envAllValid "f.mp4" "bogus"
     (by decide) (by decide)⟩

/-- The audio metadata validator never lets an exception escape. -/
theorem validate_audio_metadata_not_exc (fs : Audio.FileSys) (env : ProcEnv)
    (file_path : String) :
    ∀ e, (Audio.validate_audio_metadata fs env file_path).1 ≠ Py.exc e := by
  intro e
  unfold Audio.validate_audio_metadata
  repeat' (first | split | dsimp only)
  all_goals simp

/-- The audio playback validator never lets an exception escape. -/
theorem validate_audio_playback_not_exc (env : ProcEnv) (file_path : String) :
    ∀ e, (Audio.validate_audio_playback env file_path).1 ≠ Py.exc e := by
  intro e
  unfold Audio.validate_audio_playback
  repeat' (first | split | dsimp only)
  all_goals simp

/-- The combined audio validator never lets an exception escape. -/
theorem validate_audio_file_not_exc (fs : Audio.FileSys) (env : ProcEnv)
    (file_path : String) :
    ∀ e, (Audio.validate_audio_file fs env file_path).1 ≠ Py.exc e := by
  intro e
  rcases hm : Audio.validate_audio_metadata fs env file_path with ⟨resm, trm⟩
  rcases hp : Audio.validate_audio_playback env file_path with ⟨resp, trp⟩
  cases resm with
  | ret a =>
    cases a with
    | some r => simp [Audio.validate_audio_file, hm]
    | none =>
      have h2 := validate_audio_playback_not_exc env file_path e
      rw [hp] at h2
      simpa [Audio.validate_audio_file, hm, hp] using h2
  | exc e2 =>
    have h2 := validate_audio_metadata_not_exc fs env file_path e2
    rw [hm] at h2
    simp at h2
  | hung => simp [Audio.validate_audio_file, hm]

/-- Failures are converted to outcomes at the lowest layer: every video
task returns a pair, the section run returns a result list, the audio and
software wrappers never re-raise, whatever the environment does. -/
def scanNeverPropagates (env : ProcEnv) (completed : List String) : Prop :=
  (∀ v decoder file_path, ∃ b r,
     (Video.runValidation env v decoder file_path).1 = Py.ret (b, r)) ∧
  (∀ v decoder, ∃ out,
     Video.process_section env v decoder completed = Py.ret out) ∧
  (∀ fs : Audio.FileSys, ∀ file_path e,
     (Audio.validate_audio_file fs env file_path).1 ≠ Py.exc e) ∧
  (∀ file_path e, (VideoSW.is_video_corrupted env file_path).1 ≠ Py.exc e) ∧
  (∃ out, VideoSW.process_section env completed = Py.ret out)

/-- C7: any exception raised while orchestrating a file's sub-invocations
is caught inside the strategy or the pool task wrapper and converted into
a per-file outcome; no exception propagates out of a whole-scan run. -/
theorem scan_never_propagates_exceptions :
    ∀ (env : ProcEnv) (completed : List String), scanNeverPropagates env completed := by
  intro env completed
  refine ⟨?_, ?_, ?_, ?_, ?_⟩
  · intro v decoder file_path
    exact runValidation_ret env v decoder file_path
  · intro v decoder
    exact ⟨_, process_section_eq env v decoder completed⟩
  · intro fs file_path e
    exact validate_audio_file_not_exc fs env file_path e
  · intro file_path e
    rcases is_video_corrupted_shape env file_path with h | ⟨m, h⟩ <;> rw [h] <;> simp
  · exact ⟨_, process_sectionSW_eq env completed⟩

/-- Every submitted file is observed exactly once by the pool: the
observation list has one entry per submitted file, its paths are a
permutation of the submitted set (unique when the set has no duplicates),
the corrupted list is exactly what those observations contribute, and a
file whose task reports failure is present in the corrupted list rather
than dropped. -/
def poolOutcomeComplete (env : ProcEnv) (v : Video.VMethod) (decoder : String)
    (files completed : List String) : Prop :=
  (Video.sectionOutcomes env v decoder completed).length = files.length ∧
  ((Video.sectionOutcomes env v decoder completed).map Prod.fst).Perm files ∧
  (∀ f ∈ files, f ∈ (Video.sectionOutcomes env v decoder completed).map Prod.fst) ∧
  (files.Nodup → ((Video.sectionOutcomes env v decoder completed).map Prod.fst).Nodup) ∧
  ∃ corrupted csvPart,
    Video.process_section env v decoder completed = Py.ret (corrupted, csvPart) ∧
    corrupted = completed.filterMap
      (fun fp => Video.taskEntry fp (Video.runValidation env v decoder fp).1) ∧
    ∀ fp ∈ completed, ∃ b r,
      (Video.runValidation env v decoder fp).1 = Py.ret (b, r) ∧
      (b = false → (fp, r) ∈ corrupted)

/-- The observed paths are the completion-order list itself. -/
theorem sectionOutcomes_map_fst (env : ProcEnv) (v : Video.VMethod)
    (decoder : String) :
    ∀ completed : List String,
      (Video.sectionOutcomes env v decoder completed).map Prod.fst = completed := by
  intro completed
  induction completed with
  | nil => rfl
  | cons a t ih => simp only [Video.sectionOutcomes, List.map_cons] at ih ⊢; rw [ih]

/-- C1: for every file set and strategy, running the pool produces exactly
one recorded outcome per submitted file — paths unique when the input set
is duplicate-free, nothing omitted even when a task errors or times
out. -/
theorem pool_exactly_one_outcome_per_file (env : ProcEnv) (v : Video.VMethod)
    (decoder : String) (files completed : List String)
    (hperm : completed.Perm files) :
    poolOutcomeComplete env v decoder files completed := by
  have hmap := sectionOutcomes_map_fst env v decoder completed
  refine ⟨?_, ?_, ?_, ?_, ?_⟩
  · simp [Video.sectionOutcomes, hperm.length_eq]
  · rw [hmap]; exact hperm
  · intro f hf
    rw [hmap]
    exact hperm.mem_iff.mpr hf
  · intro hnd
    rw [hmap]
    exact hperm.nodup_iff.mpr hnd
  · refine ⟨_, _, process_section_eq env v decoder completed, rfl, ?_⟩
    intro fp hfp
    obtain ⟨b, r, h⟩ := runValidation_ret env v decoder fp
    refine ⟨b, r, h, ?_⟩
    intro hb
    subst hb
    exact List.mem_filterMap.mpr ⟨fp, hfp, by rw [h]; simp [Video.taskEntry]⟩

/-- C1 witness at a two-file set observed in reversed completion order. -/
theorem pool_exactly_one_outcome_per_file_witness :
    (["b.mp4", "a.mp4"] : List String).Perm ["a.mp4", "b.mp4"] ∧
    poolOutcomeComplete envAllValid Video.VMethod.metadata "software"
      ["a.mp4", "b.mp4"] ["b.mp4", "a.mp4"] :=
  ⟨List.Perm.swap "a.mp4" "b.mp4" [],
   pool_exactly_one_outcome_per_file envAllValid Video.VMethod.metadata "software"
     ["a.mp4", "b.mp4"] ["b.mp4", "a.mp4"] (List.Perm.swap "a.mp4" "b.mp4" [])⟩

/-- Shape of the conditional CSV write: no rows exactly for an empty
corrupted list, the header-plus-rows value otherwise. -/
theorem csv_if_spec (L : List (String × Option String)) :
    ((if L.isEmpty then none else some (Video.csvRows L)) = none ↔ L = []) ∧
    (L ≠ [] → (if L.isEmpty then none else some (Video.csvRows L))
        = some (Video.csvRows L)) := by
  cases L <;> simp [List.isEmpty]

/-- In both video scanners, the section CSV is written exactly when the
corrupted list is nonempty — an all-valid section performs no write at all
— and when written it consists of the header row plus one row per
corrupted file; the corrupted list is returned to the caller either
way. -/
def csvOnlyWhenCorrupted (env : ProcEnv) (v : Video.VMethod) (decoder : String)
    (completed : List String) : Prop :=
  (∀ corrupted w,
    Video.process_section env v decoder completed = Py.ret (corrupted, w) →
      ((w = none ↔ corrupted = []) ∧
       (corrupted ≠ [] → w = some (Video.csvRows corrupted)) ∧
       (corrupted = [] ↔ ∀ fp ∈ completed, ∃ r,
          (Video.runValidation env v decoder fp).1 = Py.ret (true, r)))) ∧
  (∀ corrupted w,
    VideoSW.process_section env completed = Py.ret (corrupted, w) →
      ((w = none ↔ corrupted = []) ∧
       (corrupted ≠ [] → w = some (Video.csvRows corrupted)) ∧
       (corrupted = [] ↔ ∀ fp ∈ completed,
          (VideoSW.is_video_corrupted env fp).1 = Py.ret (false, none))))

/-- C10: process_section writes no CSV when the section's corrupted list
is empty, writes header plus rows only when at least one corrupted file
was recorded, and still returns the list to the caller. -/
theorem csv_written_only_when_corrupted (env : ProcEnv) (v : Video.VMethod)
    (decoder : String) (completed : List String) :
    csvOnlyWhenCorrupted env v decoder completed := by
  constructor
  · intro corrupted w h
    rw [process_section_eq] at h
    simp only [Py.ret.injEq, Prod.mk.injEq] at h
    obtain ⟨h1, h2⟩ := h
    subst h1
    subst h2
    refine ⟨(csv_if_spec _).1, (csv_if_spec _).2, ?_⟩
    rw [List.filterMap_eq_nil_iff]
    constructor
    · intro hall fp hfp
      obtain ⟨b, r, h⟩ := runValidation_ret env v decoder fp
      have := hall fp hfp
      rw [h] at this
      simp [Video.taskEntry] at this
      exact ⟨r, by rw [h, this]⟩
    · intro hall fp hfp
      obtain ⟨r, h⟩ := hall fp hfp
      rw [h]
      simp [Video.taskEntry]
  · intro corrupted w h
    rw [process_sectionSW_eq] at h
    simp only [Py.ret.injEq, Prod.mk.injEq] at h
    obtain ⟨h1, h2⟩ := h
    subst h1
    subst h2
    refine ⟨(csv_if_spec _).1, (csv_if_spec _).2, ?_⟩
    rw [List.filterMap_eq_nil_iff]
    constructor
    · intro hall fp hfp
      have := hall fp hfp
      rcases is_video_corrupted_shape env fp with hs | ⟨m, hs⟩
      · exact hs
      · rw [hs] at this
        simp [VideoSW.taskEntry] at this
    · intro hall fp hfp
      rw [hall fp hfp]
      simp [VideoSW.taskEntry]

/-- C8 counterexample: a timed-out validation is appended to the same
corrupted-files list as confirmed-corrupt ones, counted in the corrupted
total and written under the Corrupted File Path header; there is no
distinct Timeout verdict in the report, only the reason text. -/
theorem timeout_in_corrupted_report_counterexample :
    Video.process_section envNever Video.VMethod.metadata "software" ["m.mkv"]
      = Py.ret ([("m.mkv", some "Process timed out, Please Check Manually")],
          some [["Corrupted File Path", "Reason"],
                ["m.mkv", "Process timed out, Please Check Manually"]]) := by
  rfl

/-- A nonempty string keeps its first character under append. -/
theorem head_of_append (p s : String) (c : Char) (hp : p.toList.head? = some c) :
    (p ++ s).toList.head? = some c := by
  have hdata : (p ++ s).toList = p.toList ++ s.toList := by
    simp [String.toList, String.data_append]
  rw [hdata]
  cases hl : p.toList with
  | nil => rw [hl] at hp; simp at hp
  | cons a t =>
    rw [hl] at hp
    simp at hp
    simp [hp]

/-- Strings whose first characters differ are different. -/
theorem ne_of_head (a b : String) (c d : Char) (h1 : a.toList.head? = some c)
    (h2 : b.toList.head? = some d) (hcd : c ≠ d) : a ≠ b := by
  intro he
  rw [he, h2] at h1
  injection h1 with h3
  exact hcd h3.symm

/-- No invalid-data verdict carries the timeout reason text. -/
theorem invalid_msg_ne_timeout (s : String) :
    "Invalid data found: " ++ s ≠ "Process timed out, Please Check Manually" :=
  ne_of_head _ _ 'I' 'P' (head_of_append _ s 'I' (by decide)) (by decide) (by decide)

/-- No metadata-failure verdict carries the timeout reason text. -/
theorem metafail_msg_ne_timeout (s : String) :
    "Metadata validation failed: " ++ s ≠ "Process timed out, Please Check Manually" :=
  ne_of_head _ _ 'M' 'P' (head_of_append _ s 'M' (by decide)) (by decide) (by decide)

/-- No caught-exception verdict carries the timeout reason text. -/
theorem errocc_msg_ne_timeout (s : String) :
    "Error occurred: " ++ s ≠ "Process timed out, Please Check Manually" :=
  ne_of_head _ _ 'E' 'P' (head_of_append _ s 'E' (by decide)) (by decide) (by decide)

/-- A metadata validation reports the reason Process timed out, Please
Check Manually exactly when its ffprobe invocation timed out — every other
branch produces a reason with a different fixed head — and a timed-out
file is then recorded in the corrupted-files report and counted. -/
def timeoutOnlyFromTimeout (env : ProcEnv) (file_path : String) : Prop :=
  ((Video.validate_metadata env file_path).1
      = Py.ret (false, some "Process timed out, Please Check Manually")
    ↔ communicate env (Video.metadataCommand file_path) (some 30) = Comm.timedOut) ∧
  (communicate env (Video.metadataCommand file_path) (some 30) = Comm.timedOut →
    Video.process_section env Video.VMethod.metadata "software" [file_path]
      = Py.ret ([(file_path, some "Process timed out, Please Check Manually")],
          some [["Corrupted File Path", "Reason"],
                [file_path, "Process timed out, Please Check Manually"]]))

/-- C8 amended: the timeout reason string identifies timeouts exactly, but
the timed-out file is recorded and counted in the same corrupted-files
report as confirmed-corrupt files. -/
theorem timeout_distinguishable_only_by_reason (env : ProcEnv) (file_path : String) :
    timeoutOnlyFromTimeout env file_path := by
  constructor
  · constructor
    · intro h
      rcases hc : communicate env (Video.metadataCommand file_path) (some 30) with
        ⟨ec, o, e⟩ | _ | m | _
      · simp only [Video.validate_metadata, hc] at h
        by_cases hec : ec = 0
        · simp [hec] at h
        · simp [hec] at h
          by_cases hinv : strContains e "Invalid data found"
          · rw [if_pos hinv] at h
            simp at h
            exact absurd h (invalid_msg_ne_timeout _)
          · rw [if_neg hinv] at h
            simp at h
            exact absurd h (metafail_msg_ne_timeout _)
      · rfl
      · simp only [Video.validate_metadata, hc] at h
        simp at h
        exact absurd h (errocc_msg_ne_timeout _)
      · exact absurd hc (communicate_some_ne_hung _ _ _)
    · intro hc
      simp [Video.validate_metadata, hc]
  · intro hc
    have htask : Video.taskEntry file_path
        (Video.runValidation env Video.VMethod.metadata "software" file_path).1
        = some (file_path, some "Process timed out, Please Check Manually") := by
      simp [Video.runValidation, Video.validate_metadata, hc, Video.taskEntry]
    rw [process_section_eq]
    simp [htask, Video.csvRows]

/-- Boolean check that every recorded invocation carries the given timeout
argument. -/
def allBounded (tr : List Event) (tl : Option Nat) : Bool :=
  tr.all (fun ev => ev.tlimit == tl)

/-- Timeout discipline of the scanners: every video-scanner invocation is
waited on with the 30-second timeout and a timed-out probe is killed before
a check-manually classified result is returned, while every audio-scanner
invocation is issued with no timeout at all. -/
def timeoutDiscipline (env : ProcEnv) (file_path decoder : String) : Prop :=
  allBounded (Video.validate_metadata env file_path).2 (some 30) = true ∧
  allBounded (Video.validate_playback env file_path decoder).2 (some 30) = true ∧
  allBounded (Video.validate_playback_indepth env file_path decoder 30).2 (some 30)
    = true ∧
  allBounded (VideoSW.validate_playback env file_path).2 (some 30) = true ∧
  (communicate env (Video.metadataCommand file_path) (some 30) = Comm.timedOut →
    Video.validate_metadata env file_path
      = (Py.ret (false, some "Process timed out, Please Check Manually"),
         [⟨Video.metadataCommand file_path, some 30, true⟩])) ∧
  (∀ c, Video.playbackCommand decoder file_path = some c →
    communicate env c (some 30) = Comm.timedOut →
    Video.validate_playback env file_path decoder
      = (Py.ret (false, some "Playback process timed out, Please Check Manually"),
         [⟨c, some 30, true⟩])) ∧
  (∀ c, Video.indepthStartCommand decoder file_path = some c →
    communicate env c (some 30) = Comm.timedOut →
    Video.validate_playback_indepth env file_path decoder 30
      = (Py.ret (false, some "Playback process timed out, Please Check Manually"),
         [⟨c, some 30, true⟩])) ∧
  allBounded (Audio.validate_audio_playback env file_path).2 none = true ∧
  (∀ fs : Audio.FileSys,
    allBounded (Audio.validate_audio_metadata fs env file_path).2 none = true)

/-- C4 amended: the 30-second bound with kill-on-timeout holds for every
invocation of the video scanners, but the audio scanner's invocations are
unbounded. -/
theorem timeout_discipline_video_only (env : ProcEnv) (file_path decoder : String) :
    timeoutDiscipline env file_path decoder := by
  refine ⟨?_, ?_, ?_, ?_, ?_, ?_, ?_, ?_, ?_⟩
  · unfold Video.validate_metadata
    repeat' (first | split | dsimp only)
    all_goals rfl
  · unfold Video.validate_playback
    repeat' (first | split | dsimp only)
    all_goals rfl
  · unfold Video.validate_playback_indepth
    repeat' (first | split | dsimp only)
    all_goals rfl
  · unfold VideoSW.validate_playback
    repeat' (first | split | dsimp only)
    all_goals rfl
  · intro hc
    simp [Video.validate_metadata, hc]
  · intro c hcmd hc
    simp [Video.validate_playback, hcmd, hc]
  · intro c hcmd hc
    simp [Video.validate_playback_indepth, hcmd, hc]
  · unfold Audio.validate_audio_playback
    repeat' (first | split | dsimp only)
    all_goals rfl
  · intro fs
    unfold Audio.validate_audio_metadata
    repeat' (first | split | dsimp only)
    all_goals rfl

/-- C2 amended: only the audio scanner's metadata validator (and so the
combined audio validator) rejects a missing or empty file immediately with
no external invocation; the video MetadataCheck validator never consults
the filesystem and its trace is empty only when the probe could not even
be spawned. -/
theorem existence_fastpath_audio_only (fs : Audio.FileSys) (env : ProcEnv)
    (file_path : String) (h : fs file_path = none ∨ fs file_path = some 0) :
    Audio.validate_audio_metadata fs env file_path
      = (Py.ret (some (file_path, "File is empty or does not exist")), []) ∧
    Audio.validate_audio_file fs env file_path
      = (Py.ret (some (file_path, "File is empty or does not exist")), []) ∧
    ((Video.validate_metadata env file_path).2 = [] →
      ∃ m, env (Video.metadataCommand file_path) = ProcSpec.spawnFailure m) := by
  have h1 : Audio.validate_audio_metadata fs env file_path
      = (Py.ret (some (file_path, "File is empty or does not exist")), []) := by
    rcases h with h | h <;> simp [Audio.validate_audio_metadata, h]
  refine ⟨h1, ?_, ?_⟩
  · simp [Audio.validate_audio_file, h1]
  · intro htr
    rcases hb : env (Video.metadataCommand file_path) with ⟨d, ec, o, e⟩ | _ | m
    · by_cases h30 : 30 < d
      · simp [Video.validate_metadata, communicate, hb, h30] at htr
      · by_cases hec : ec = 0 <;>
          by_cases hinv : strContains e "Invalid data found" <;>
          simp [Video.validate_metadata, communicate, hb, h30, hec, hinv] at htr
    · simp [Video.validate_metadata, communicate, hb] at htr
    · exact ⟨m, rfl⟩

/-- C2 amended witness: a missing audio file under a concrete filesystem
and environment. -/
theorem existence_fastpath_audio_only_witness :
    (fsAllMissing "x.mp3" = none ∨ fsAllMissing "x.mp3" = some 0) ∧
    (Audio.validate_audio_metadata fsAllMissing envAllValid "x.mp3"
        = (Py.ret (some ("x.mp3", "File is empty or does not exist")), []) ∧
     Audio.validate_audio_file fsAllMissing envAllValid "x.mp3"
        = (Py.ret (some ("x.mp3", "File is empty or does not exist")), []) ∧
     ((Video.validate_metadata envAllValid "x.mp3").2 = [] →
        ∃ m, envAllValid (Video.metadataCommand "x.mp3")
          = ProcSpec.spawnFailure m)) :=
  ⟨Or.inl rfl,
   existence_fastpath_audio_only fsAllMissing envAllValid "x.mp3" (Or.inl rfl)⟩

/-- Pass criterion of a playback probe, following the spec: the probe
passes when the process completed with exit code zero. -/
def playbackPass : Comm → Bool
  | Comm.done ec _ _ => if ec = 0 then true else false
  | _ => false

/-- Pass criterion of the video duration query, following the spec: exit
zero, nonempty stripped stdout, and a parsable duration. -/
def durationPassVideo : Comm → Bool
  | Comm.done ec out _ =>
    if ec = 0 ∧ pyStrip out ≠ "" ∧ (pyFloat? (pyStrip out)).isSome then true
    else false
  | _ => false

/-- Pass criterion of the audio duration query: the scanner ignores the
exit code and only requires nonempty, parsable stdout. -/
def durationPassAudio : Comm → Bool
  | Comm.done _ out _ =>
    if pyStrip out ≠ "" ∧ (pyFloat? (pyStrip out)).isSome then true else false
  | _ => false

/-- Modelled from the spec: run the given probes strictly in order,
recording each successfully spawned probe, and stop at the first probe
that does not pass (a failed spawn records nothing). -/
def shortCircuitTrace (env : ProcEnv) (tl : Option Nat) :
    List (List String × (Comm → Bool)) → List (List String)
  | [] => []
  | (c, pass) :: rest =>
    match communicate env c tl with
    | Comm.spawnErr _ => []
    | r => if pass r then c :: shortCircuitTrace env tl rest else [c]

/-- Midpoint string the video in-depth validator would seek to, read off
the environment's answer to the duration query. -/
def videoPlanMidStr (env : ProcEnv) (file_path : String) : String :=
  match communicate env (Video.durationCommand file_path) (some 30) with
  | Comm.done _ out _ =>
    match pyFloat? (pyStrip out) with
    | some q => qToPyStr (q / 2)
    | none => "0"
  | _ => "0"

/-- Midpoint string the audio playback validator would seek to. -/
def audioPlanMidStr (env : ProcEnv) (file_path : String) : String :=
  match communicate env (Audio.durationCommand file_path) none with
  | Comm.done _ out _ =>
    match pyFloat? (pyStrip out) with
    | some q => qToPyStr (q / 2)
    | none => "0"
  | _ => "0"

/-- The ordered probe plan of the video in-depth validator: start,
duration query, middle, end. -/
def videoProbePlan (env : ProcEnv) (file_path decoder : String) :
    List (List String × (Comm → Bool)) :=
  match Video.indepthStartCommand decoder file_path,
        Video.indepthMiddleCommand decoder (videoPlanMidStr env file_path) file_path,
        Video.indepthEndCommand decoder file_path with
  | some c1, some c3, some c4 =>
    [(c1, playbackPass), (Video.durationCommand file_path, durationPassVideo),
     (c3, playbackPass), (c4, playbackPass)]
  | _, _, _ => []

/-- The ordered probe plan of the audio playback validator. -/
def audioProbePlan (env : ProcEnv) (file_path : String) :
    List (List String × (Comm → Bool)) :=
  [(Audio.startCommand file_path, playbackPass),
   (Audio.durationCommand file_path, durationPassAudio),
   (Audio.middleCommand (audioPlanMidStr env file_path) file_path, playbackPass),
   (Audio.endCommand file_path, playbackPass)]

/-- The video in-depth validator spawns exactly the probes of its ordered
plan, in order, stopping at the first failing stage. -/
theorem indepth_trace_eq (env : ProcEnv) (file_path decoder : String) :
    (Video.validate_playback_indepth env file_path decoder 30).2.map Event.cmd
      = shortCircuitTrace env (some 30) (videoProbePlan env file_path decoder) := by
  rcases h1 : Video.indepthStartCommand decoder file_path with _ | c1
  · simp [Video.validate_playback_indepth, videoProbePlan, h1, shortCircuitTrace]
  · have hdec : decoder = "software" ∨ decoder = "hardware" := by
      by_contra hc
      push_neg at hc
      simp [Video.indepthStartCommand, hc.1, hc.2] at h1
    obtain ⟨c3, hmid⟩ : ∃ c3,
        Video.indepthMiddleCommand decoder (videoPlanMidStr env file_path) file_path
          = some c3 := by
      rcases hdec with rfl | rfl <;> exact ⟨_, rfl⟩
    obtain ⟨c4, hend⟩ : ∃ c4, Video.indepthEndCommand decoder file_path = some c4 := by
      rcases hdec with rfl | rfl <;> exact ⟨_, rfl⟩
    simp only [videoProbePlan, h1, hmid, hend]
    rcases hb1 : env c1 with ⟨d1, ec1, o1, e1⟩ | _ | m1
    · by_cases h30a : 30 < d1
      · simp [Video.validate_playback_indepth, shortCircuitTrace, communicate, h1,
          hb1, h30a, playbackPass]
      · by_cases hec1 : ec1 = 0
        · rcases hb2 : env (Video.durationCommand file_path) with
            ⟨d2, ec2, o2, e2⟩ | _ | m2
          · by_cases h30b : 30 < d2
            · simp [Video.validate_playback_indepth, shortCircuitTrace, communicate,
                h1, hb1, h30a, hec1, hb2, h30b, playbackPass, durationPassVideo]
            · by_cases hec2 : ec2 = 0
              · by_cases hds : pyStrip o2 = ""
                · simp [Video.validate_playback_indepth, shortCircuitTrace,
                    communicate, h1, hb1, h30a, hec1, hb2, h30b, hec2, hds,
                    playbackPass, durationPassVideo]
                · rcases hpf : pyFloat? (pyStrip o2) with _ | q
                  · simp [Video.validate_playback_indepth, shortCircuitTrace,
                      communicate, h1, hb1, h30a, hec1, hb2, h30b, hec2, hds, hpf,
                      playbackPass, durationPassVideo]
                  · have hmidstr : videoPlanMidStr env file_path = qToPyStr (q / 2) := by
                      simp [videoPlanMidStr, communicate, hb2, h30b, hpf]
                    rw [hmidstr] at hmid
                    rcases hb3 : env c3 with ⟨d3, ec3, o3, e3⟩ | _ | m3
                    · by_cases h30c : 30 < d3
                      · simp [Video.validate_playback_indepth, shortCircuitTrace,
                          communicate, h1, hb1, h30a, hec1, hb2, h30b, hec2, hds,
                          hpf, hmid, hb3, h30c, playbackPass, durationPassVideo]
                      · by_cases hec3 : ec3 = 0
                        · rcases hb4 : env c4 with ⟨d4, ec4, o4, e4⟩ | _ | m4
                          · by_cases h30d : 30 < d4
                            · simp [Video.validate_playback_indepth,
                                shortCircuitTrace, communicate, h1, hb1, h30a, hec1,
                                hb2, h30b, hec2, hds, hpf, hmid, hb3, h30c, hec3,
                                hend, hb4, h30d, playbackPass, durationPassVideo]
                            · by_cases hec4 : ec4 = 0 <;>
                                simp [Video.validate_playback_indepth,
                                  shortCircuitTrace, communicate, h1, hb1, h30a,
                                  hec1, hb2, h30b, hec2, hds, hpf, hmid, hb3, h30c,
                                  hec3, hend, hb4, h30d, hec4, playbackPass,
                                  durationPassVideo]
                          · simp [Video.validate_playback_indepth, shortCircuitTrace,
                              communicate, h1, hb1, h30a, hec1, hb2, h30b, hec2,
                              hds, hpf, hmid, hb3, h30c, hec3, hend, hb4,
                              playbackPass, durationPassVideo]
                          · simp [Video.validate_playback_indepth, shortCircuitTrace,
                              communicate, h1, hb1, h30a, hec1, hb2, h30b, hec2,
                              hds, hpf, hmid, hb3, h30c, hec3, hend, hb4,
                              playbackPass, durationPassVideo]
                        · simp [Video.validate_playback_indepth, shortCircuitTrace,
                            communicate, h1, hb1, h30a, hec1, hb2, h30b, hec2, hds,
                            hpf, hmid, hb3, h30c, hec3, playbackPass,
                            durationPassVideo]
                    · simp [Video.validate_playback_indepth, shortCircuitTrace,
                        communicate, h1, hb1, h30a, hec1, hb2, h30b, hec2, hds, hpf,
                        hmid, hb3, playbackPass, durationPassVideo]
                    · simp [Video.validate_playback_indepth, shortCircuitTrace,
                        communicate, h1, hb1, h30a, hec1, hb2, h30b, hec2, hds, hpf,
                        hmid, hb3, playbackPass, durationPassVideo]
              · simp [Video.validate_playback_indepth, shortCircuitTrace,
                  communicate, h1, hb1, h30a, hec1, hb2, h30b, hec2, playbackPass,
                  durationPassVideo]
          · simp [Video.validate_playback_indepth, shortCircuitTrace, communicate,
              h1, hb1, h30a, hec1, hb2, playbackPass, durationPassVideo]
          · simp [Video.validate_playback_indepth, shortCircuitTrace, communicate,
              h1, hb1, h30a, hec1, hb2, playbackPass, durationPassVideo]
        · simp [Video.validate_playback_indepth, shortCircuitTrace, communicate, h1,
            hb1, h30a, hec1, playbackPass]
    · simp [Video.validate_playback_indepth, shortCircuitTrace, communicate, h1,
        hb1, playbackPass]
    · simp [Video.validate_playback_indepth, shortCircuitTrace, communicate, h1, hb1]

/-- The audio playback validator spawns exactly the probes of its ordered
plan, in order, stopping at the first failing stage (a stage that never
completes blocks the validator at that probe). -/
theorem audio_trace_eq (env : ProcEnv) (file_path : String) :
    (Audio.validate_audio_playback env file_path).2.map Event.cmd
      = shortCircuitTrace env none (audioProbePlan env file_path) := by
  rcases hb1 : env (Audio.startCommand file_path) with ⟨d1, ec1, o1, e1⟩ | _ | m1
  · by_cases hec1 : ec1 = 0
    · rcases hb2 : env (Audio.durationCommand file_path) with
        ⟨d2, ec2, o2, e2⟩ | _ | m2
      · by_cases hds : pyStrip o2 = ""
        · simp [Audio.validate_audio_playback, audioProbePlan, shortCircuitTrace,
            subprocessRun, communicate, hb1, hec1, hb2, hds, playbackPass,
            durationPassAudio]
        · rcases hpf : pyFloat? (pyStrip o2) with _ | q
          · simp [Audio.validate_audio_playback, audioProbePlan, shortCircuitTrace,
              subprocessRun, communicate, hb1, hec1, hb2, hds, hpf, playbackPass,
              durationPassAudio]
          · have hmidstr : audioPlanMidStr env file_path = qToPyStr (q / 2) := by
              simp [audioPlanMidStr, communicate, hb2, hpf]
            rcases hb3 : env (Audio.middleCommand (qToPyStr (q / 2)) file_path) with
              ⟨d3, ec3, o3, e3⟩ | _ | m3
            · by_cases hec3 : ec3 = 0
              · rcases hb4 : env (Audio.endCommand file_path) with
                  ⟨d4, ec4, o4, e4⟩ | _ | m4
                · by_cases hec4 : ec4 = 0 <;>
                    simp [Audio.validate_audio_playback, audioProbePlan,
                      shortCircuitTrace, subprocessRun, communicate, hb1, hec1, hb2,
                      hds, hpf, hmidstr, hb3, hec3, hb4, hec4, playbackPass,
                      durationPassAudio]
                · simp [Audio.validate_audio_playback, audioProbePlan,
                    shortCircuitTrace, subprocessRun, communicate, hb1, hec1, hb2,
                    hds, hpf, hmidstr, hb3, hec3, hb4, playbackPass,
                    durationPassAudio]
                · simp [Audio.validate_audio_playback, audioProbePlan,
                    shortCircuitTrace, subprocessRun, communicate, hb1, hec1, hb2,
                    hds, hpf, hmidstr, hb3, hec3, hb4, playbackPass,
                    durationPassAudio]
              · simp [Audio.validate_audio_playback, audioProbePlan,
                  shortCircuitTrace, subprocessRun, communicate, hb1, hec1, hb2,
                  hds, hpf, hmidstr, hb3, hec3, playbackPass, durationPassAudio]
            · simp [Audio.validate_audio_playback, audioProbePlan,
                shortCircuitTrace, subprocessRun, communicate, hb1, hec1, hb2, hds,
                hpf, hmidstr, hb3, playbackPass, durationPassAudio]
            · simp [Audio.validate_audio_playback, audioProbePlan,
                shortCircuitTrace, subprocessRun, communicate, hb1, hec1, hb2, hds,
                hpf, hmidstr, hb3, playbackPass, durationPassAudio]
      · simp [Audio.validate_audio_playback, audioProbePlan, shortCircuitTrace,
          subprocessRun, communicate, hb1, hec1, hb2, playbackPass,
          durationPassAudio]
      · simp [Audio.validate_audio_playback, audioProbePlan, shortCircuitTrace,
          subprocessRun, communicate, hb1, hec1, hb2, playbackPass,
          durationPassAudio]
    · simp [Audio.validate_audio_playback, audioProbePlan, shortCircuitTrace,
        subprocessRun, communicate, hb1, hec1, playbackPass]
  · simp [Audio.validate_audio_playback, audioProbePlan, shortCircuitTrace,
      subprocessRun, communicate, hb1, playbackPass]
  · simp [Audio.validate_audio_playback, audioProbePlan, shortCircuitTrace,
      subprocessRun, communicate, hb1, playbackPass]

/-- A passing playback probe completed with exit code zero. -/
theorem playbackPass_done {r : Comm} (h : playbackPass r = true) :
    ∃ o e, r = Comm.done 0 o e := by
  cases r with
  | done ec o e =>
    by_cases hec : ec = 0
    · exact ⟨o, e, by rw [hec]⟩
    · simp [playbackPass, hec] at h
  | timedOut => simp [playbackPass] at h
  | spawnErr m => simp [playbackPass] at h
  | hung => simp [playbackPass] at h

/-- A passing video duration query completed with exit zero, nonempty
stripped stdout and a parsable duration. -/
theorem durationPassVideo_done {r : Comm} (h : durationPassVideo r = true) :
    ∃ o e q, r = Comm.done 0 o e ∧ pyStrip o ≠ "" ∧ pyFloat? (pyStrip o) = some q := by
  cases r with
  | done ec o e =>
    by_cases hc : ec = 0 ∧ pyStrip o ≠ "" ∧ (pyFloat? (pyStrip o)).isSome
    · obtain ⟨hec, hne, hsome⟩ := hc
      obtain ⟨q, hq⟩ := Option.isSome_iff_exists.mp hsome
      exact ⟨o, e, q, by rw [hec], hne, hq⟩
    · simp only [durationPassVideo, if_neg hc] at h
      exact absurd h (by simp)
  | timedOut => simp [durationPassVideo] at h
  | spawnErr m => simp [durationPassVideo] at h
  | hung => simp [durationPassVideo] at h

/-- Stage attribution of the in-depth validator: whichever stage is the
first to fail with a non-zero exit determines the reported message, later
probes are not spawned, and a fully passing run reports (True, None). -/
theorem indepth_stage_attribution (env : ProcEnv) (file_path decoder : String) :
    ∀ c1, Video.indepthStartCommand decoder file_path = some c1 →
    ((∀ d ec o e, env c1 = ProcSpec.responds d ec o e → d ≤ 30 → ec ≠ 0 →
       Video.validate_playback_indepth env file_path decoder 30
         = (Py.ret (false, some ("Playback failed at the start: " ++ pyStrip e)),
            [⟨c1, some 30, false⟩])) ∧
     (playbackPass (communicate env c1 (some 30)) = true →
       ((∀ d ec o e,
           env (Video.durationCommand file_path) = ProcSpec.responds d ec o e →
           d ≤ 30 → ec ≠ 0 →
           (Video.validate_playback_indepth env file_path decoder 30).1
             = Py.ret (false, some ("Failed to fetch file duration: " ++ pyStrip e)) ∧
           (Video.validate_playback_indepth env file_path decoder 30).2.map Event.cmd
             = [c1, Video.durationCommand file_path]) ∧
        (durationPassVideo
            (communicate env (Video.durationCommand file_path) (some 30)) = true →
          ∀ c3, Video.indepthMiddleCommand decoder (videoPlanMidStr env file_path)
              file_path = some c3 →
          ((∀ d ec o e, env c3 = ProcSpec.responds d ec o e → d ≤ 30 → ec ≠ 0 →
             (Video.validate_playback_indepth env file_path decoder 30).1
               = Py.ret (false, some ("Playback failed at the middle: " ++ pyStrip e)) ∧
             (Video.validate_playback_indepth env file_path decoder 30).2.map Event.cmd
               = [c1, Video.durationCommand file_path, c3]) ∧
           (playbackPass (communicate env c3 (some 30)) = true →
             ∀ c4, Video.indepthEndCommand decoder file_path = some c4 →
             ((∀ d ec o e, env c4 = ProcSpec.responds d ec o e → d ≤ 30 → ec ≠ 0 →
                (Video.validate_playback_indepth env file_path decoder 30).1
                  = Py.ret (false, some ("Playback failed at the end: " ++ pyStrip e)) ∧
                (Video.validate_playback_indepth env file_path decoder 30).2.map
                    Event.cmd
                  = [c1, Video.durationCommand file_path, c3, c4]) ∧
              (playbackPass (communicate env c4 (some 30)) = true →
                (Video.validate_playback_indepth env file_path decoder 30).1
                  = Py.ret (true, none))))))))) := by
  intro c1 h1
  constructor
  · intro d ec o e hb hd hec
    have hcomm : communicate env c1 (some 30) = Comm.done ec o e := by
      simp [communicate, hb, Nat.not_lt.mpr hd]
    simp [Video.validate_playback_indepth, h1, hcomm, hec]
  · intro hps1
    obtain ⟨o1, e1, hcomm1⟩ := playbackPass_done hps1
    constructor
    · intro d ec o e hb hd hec
      have hcomm2 : communicate env (Video.durationCommand file_path) (some 30)
          = Comm.done ec o e := by
        simp [communicate, hb, Nat.not_lt.mpr hd]
      constructor <;>
        simp [Video.validate_playback_indepth, h1, hcomm1, hcomm2, hec]
    · intro hps2
      obtain ⟨o2, e2, q, hcomm2, hne2, hq2⟩ := durationPassVideo_done hps2
      have hmidstr : videoPlanMidStr env file_path = qToPyStr (q / 2) := by
        simp [videoPlanMidStr, hcomm2, hq2]
      intro c3 hmid
      rw [hmidstr] at hmid
      constructor
      · intro d ec o e hb hd hec
        have hcomm3 : communicate env c3 (some 30) = Comm.done ec o e := by
          simp [communicate, hb, Nat.not_lt.mpr hd]
        constructor <;>
          simp [Video.validate_playback_indepth, h1, hcomm1, hcomm2, hne2, hq2,
            hmid, hcomm3, hec]
      · intro hps3
        obtain ⟨o3, e3, hcomm3⟩ := playbackPass_done hps3
        intro c4 hend
        constructor
        · intro d ec o e hb hd hec
          have hcomm4 : communicate env c4 (some 30) = Comm.done ec o e := by
            simp [communicate, hb, Nat.not_lt.mpr hd]
          constructor <;>
            simp [Video.validate_playback_indepth, h1, hcomm1, hcomm2, hne2, hq2,
              hmid, hcomm3, hend, hcomm4, hec]
        · intro hps4
          obtain ⟨o4, e4, hcomm4⟩ := playbackPass_done hps4
          simp [Video.validate_playback_indepth, h1, hcomm1, hcomm2, hne2, hq2,
            hmid, hcomm3, hend, hcomm4]

/-- C3: MultiPointPlayback executes its probes strictly in the order
start, duration query, middle, end; it short-circuits at the first failing
stage (no later probe is spawned) and the returned outcome reports that
stage.  The first two conjuncts equate the spawned-command trace of the
video and audio in-depth validators with the ordered short-circuit plan;
the third attributes the reported message to the failing stage. -/
theorem multipoint_ordered_short_circuit (env : ProcEnv) (file_path decoder : String) :
    ((Video.validate_playback_indepth env file_path decoder 30).2.map Event.cmd
       = shortCircuitTrace env (some 30) (videoProbePlan env file_path decoder)) ∧
    ((Audio.validate_audio_playback env file_path).2.map Event.cmd
       = shortCircuitTrace env none (audioProbePlan env file_path)) ∧
    (∀ c1, Video.indepthStartCommand decoder file_path = some c1 →
    ((∀ d ec o e, env c1 = ProcSpec.responds d ec o e → d ≤ 30 → ec ≠ 0 →
       Video.validate_playback_indepth env file_path decoder 30
         = (Py.ret (false, some ("Playback failed at the start: " ++ pyStrip e)),
            [⟨c1, some 30, false⟩])) ∧
     (playbackPass (communicate env c1 (some 30)) = true →
       ((∀ d ec o e,
           env (Video.durationCommand file_path) = ProcSpec.responds d ec o e →
           d ≤ 30 → ec ≠ 0 →
           (Video.validate_playback_indepth env file_path decoder 30).1
             = Py.ret (false, some ("Failed to fetch file duration: " ++ pyStrip e)) ∧
           (Video.validate_playback_indepth env file_path decoder 30).2.map Event.cmd
             = [c1, Video.durationCommand file_path]) ∧
        (durationPassVideo
            (communicate env (Video.durationCommand file_path) (some 30)) = true →
          ∀ c3, Video.indepthMiddleCommand decoder (videoPlanMidStr env file_path)
              file_path = some c3 →
          ((∀ d ec o e, env c3 = ProcSpec.responds d ec o e → d ≤ 30 → ec ≠ 0 →
             (Video.validate_playback_indepth env file_path decoder 30).1
               = Py.ret (false, some ("Playback failed at the middle: " ++ pyStrip e)) ∧
             (Video.validate_playback_indepth env file_path decoder 30).2.map Event.cmd
               = [c1, Video.durationCommand file_path, c3]) ∧
           (playbackPass (communicate env c3 (some 30)) = true →
             ∀ c4, Video.indepthEndCommand decoder file_path = some c4 →
             ((∀ d ec o e, env c4 = ProcSpec.responds d ec o e → d ≤ 30 → ec ≠ 0 →
                (Video.validate_playback_indepth env file_path decoder 30).1
                  = Py.ret (false, some ("Playback failed at the end: " ++ pyStrip e)) ∧
                (Video.validate_playback_indepth env file_path decoder 30).2.map
                    Event.cmd
                  = [c1, Video.durationCommand file_path, c3, c4]) ∧
              (playbackPass (communicate env c4 (some 30)) = true →
                (Video.validate_playback_indepth env file_path decoder 30).1
                  = Py.ret (true, none)))))))))) :=
  ⟨indepth_trace_eq env file_path decoder, audio_trace_eq env file_path,
   indepth_stage_attribution env file_path decoder⟩

end MediaScan
